import Mathlib

/-!
Verification of the bibfixer pipeline: a shallow embedding of
`bibfixer/agent.py` (BibFixAgent.parse_bibtex, BibFixAgent._create_prompt,
BibFixAgent.revise_bibtex), of the per-entry loop of the Streamlit front end
`app.py`, and of the CLI loop in `bibfixer/cli.py`.

External collaborators (the bibtexparser library, the BibTeX writer, and the
two OpenAI endpoints) are modelled as components of an environment record:
the embedded code is parametric in them, exactly as the Python code is a
client of those services.
-/

set_option maxRecDepth 8000

namespace BibFixer

/-! ### Python string primitives used by the agent -/

/-- The character U+007B (opening curly brace). -/
def lbrace : Char := Char.ofNat 123

/-- The character U+007D (closing curly brace). -/
def rbrace : Char := Char.ofNat 125

/-- Drop, from both ends of a character list, every character belonging to
the set `cs` (the behaviour of Python `str.strip(chars)`). -/
def charsStrip (cs : List Char) (l : List Char) : List Char :=
  ((l.dropWhile (fun c => decide (c ∈ cs))).reverse.dropWhile
      (fun c => decide (c ∈ cs))).reverse

/-- Python `s.strip(chars)`: strip every leading and trailing character that
belongs to the set `cs`. -/
def pyStripChars (cs : List Char) (s : String) : String :=
  ⟨charsStrip cs s.data⟩

/-- Whether `sep` is an initial segment of `l`. -/
def isPrefAt : List Char → List Char → Bool
  | [], _ => true
  | _ :: _, [] => false
  | a :: as, b :: bs => a == b && isPrefAt as bs

/-- Whether `sep` occurs as a contiguous run inside `l`. -/
def hasSubCh (sep : List Char) : List Char → Bool
  | [] => sep.isEmpty
  | c :: rest => isPrefAt sep (c :: rest) || hasSubCh sep rest

/-- The segment of `l` before the first occurrence of `sep` (all of `l` when
`sep` does not occur). -/
def beforeSubCh (sep : List Char) : List Char → List Char
  | [] => []
  | c :: rest => if isPrefAt sep (c :: rest) then [] else c :: beforeSubCh sep rest

/-- Drop leading and trailing whitespace from a character list. -/
def stripWhite (l : List Char) : List Char :=
  ((l.dropWhile Char.isWhitespace).reverse.dropWhile Char.isWhitespace).reverse

/-- Python `s.strip()`: strip leading and trailing whitespace. -/
def pyStrip (s : String) : String := ⟨stripWhite s.data⟩

/-- Python `sep in s` for strings. -/
def pyIn (sep s : String) : Bool := hasSubCh sep.data s.data

/-- Python `s.split(sep)[0]`: the text before the first occurrence of `sep`,
or the whole string when `sep` is absent. -/
def pySplitHead (sep s : String) : String := ⟨beforeSubCh sep.data s.data⟩

/-! ### Data model -/

/-- A BibTeX entry as the bibtexparser library represents it: a dictionary of
string fields, including the pseudo-fields `ENTRYTYPE` and `ID`. -/
structure Entry where
  fields : List (String × String)
deriving DecidableEq

/-- Python `entry.get(key, dflt)` on the field dictionary. -/
def Entry.get (e : Entry) (key dflt : String) : String :=
  match e.fields.lookup key with
  | some v => v
  | none => dflt

/-- One element of `item.content` in the Responses-API iteration branch of
`revise_bibtex`; `text = none` models a content item without a `text`
attribute. -/
structure RespContentItem where
  text : Option String
deriving DecidableEq

/-- One item of an iterable Responses-API response. `ty` models the Python
`type` attribute (`none`: attribute absent); `content` models the `content`
attribute (`none`: absent or `None`; `some []` is falsy in Python). -/
structure RespItem where
  ty : Option String
  content : Option (List RespContentItem)
deriving DecidableEq

/-- The shapes of object `client.responses.create` can return, one constructor
per branch of the `hasattr` chain in `revise_bibtex` (the constructor records
which branch fires first). -/
inductive PrimaryResponse where
  | withOutputText (t : Option String)
  | iterable (items : List RespItem)
  | withOutput (o : String)
  | other (s : String)
deriving DecidableEq

/-- A chat-completions response: `choices` lists, in order, the value of
`choices[i].message.content` for each choice. -/
structure FallbackResponse where
  choices : List String
deriving DecidableEq

/-- The external collaborators of the agent. `loads` is `bibtexparser.loads`
(returning the entry list, or an exception message); `write` is
`BibTexWriter().write` on a single-entry database; `primary` is
`client.responses.create` on the full prompt; `fallback` is
`client.chat.completions.create` on (system message, user message);
`instructions` is the result of `_load_instructions_from_file`. -/
structure Env where
  loads : String → Except String (List Entry)
  write : Entry → String
  primary : String → Except String PrimaryResponse
  fallback : String → String → Except String FallbackResponse
  instructions : Option String

/-! ### agent.py: parse_bibtex -/

/-- The dictionary `parse_bibtex` returns. -/
structure ParsedBib where
  original_entry : Entry
  title : String
  first_author : String
  entry_type : String
deriving DecidableEq

/-- The method `BibFixAgent.parse_bibtex` (agent.py lines 40-64). Any exception inside
the `try` block — a parse failure of `loads` as well as the explicit
`ValueError("No valid BibTeX entries found")` — is re-raised as
`ValueError(f"Failed to parse BibTeX: {e}")`. -/
def parse_bibtex (env : Env) (bibtex_string : String) : Except String ParsedBib :=
  match env.loads bibtex_string with
  | .error e => .error ("Failed to parse BibTeX: " ++ e)
  | .ok [] => .error "Failed to parse BibTeX: No valid BibTeX entries found"
  | .ok (entry :: _) =>
    let title := pyStripChars [lbrace, rbrace] (entry.get "title" "")
    let authors_str := entry.get "author" ""
    let first_author :=
      if authors_str ≠ "" then
        if pyIn " and " authors_str then pyStrip (pySplitHead " and " authors_str)
        else if pyIn "," authors_str then pyStrip (pySplitHead "," authors_str)
        else pyStrip authors_str
      else ""
    .ok { original_entry := entry, title := title, first_author := first_author,
          entry_type := entry.get "ENTRYTYPE" "article" }

/-! ### agent.py: _create_prompt -/

/-- The part of the prompt f-string before the original BibTeX text. -/
def headerPre (title first_author : String) : String :=
  "Please search the web for the following academic paper and correct/complete its BibTeX entry:\n\nTitle: \"" ++
    title ++ "\"\nFirst Author: " ++
    (if first_author ≠ "" then first_author else "(unknown)") ++
    "\n\nOriginal BibTeX entry:\n```bibtex\n"

/-- The body of the prompt f-string in `_create_prompt`. -/
def promptHeader (title first_author original_bibtex : String) : String :=
  headerPre title first_author ++ original_bibtex ++ "\n```\n"

/-- The block appended when `preferences` is truthy. -/
def prefsBlock (preferences : String) : String :=
  "\n5. Apply these user preferences to the formatting:\n" ++ preferences ++ "\n"

/-- The closing instruction appended to every prompt. -/
def promptTail : String :=
  "\nReturn ONLY the corrected BibTeX entry, properly formatted. Do not include any explanation or additional text.\n"

/-- The prompt after the external-instructions step: when instructions were
loaded they are appended after a newline; the missing-prompt-file branch only
prints a warning, so it is invisible here beyond `env.instructions = none`. -/
def withInstr (env : Env) (original_bibtex : String) (parsed : ParsedBib) : String :=
  match env.instructions with
  | some instr => promptHeader parsed.title parsed.first_author original_bibtex ++ "\n" ++ instr
  | none => promptHeader parsed.title parsed.first_author original_bibtex

/-- The method `BibFixAgent._create_prompt` (agent.py lines 134-165): the f-string body,
then the optional instructions, then the preferences block when `preferences`
is truthy, then the closing instruction. -/
def create_prompt (env : Env) (original_bibtex : String) (parsed : ParsedBib)
    (preferences : String) : String :=
  (if preferences ≠ "" then
     withInstr env original_bibtex parsed ++ prefsBlock preferences
   else withInstr env original_bibtex parsed) ++ promptTail

/-! ### agent.py: revise_bibtex -/

/-- The inner loop over `item.content`: the first content item carrying a
`text` attribute supplies the revised text. -/
def extractFromContent : List RespContentItem → Option String
  | [] => none
  | c :: rest =>
    match c.text with
    | some t => some t
    | none => extractFromContent rest

/-- The loop over an iterable response: the first item whose `type` attribute
equals "message" is inspected (its truthy `content` searched for a text item)
and the loop then breaks, whether or not a text was found. -/
def extractFromItems : List RespItem → Option String
  | [] => none
  | item :: rest =>
    if item.ty == some "message" then
      match item.content with
      | some (c :: cs) => extractFromContent (c :: cs)
      | _ => none
    else extractFromItems rest

/-- The `hasattr` chain of `revise_bibtex` (agent.py lines 79-94) extracting
the revised text from the primary response. -/
def extractRevised : PrimaryResponse → Option String
  | .withOutputText t => t
  | .iterable items => extractFromItems items
  | .withOutput o => some o
  | .other s => some s

/-- Python truthiness applied to the extracted value: `None` and `""` are
falsy, so `if not revised_bibtex` rejects exactly those. -/
def truthyStr : Option String → Option String
  | none => none
  | some s => if s == "" then none else some s

/-- The exceptions `revise_bibtex` lets escape. -/
inductive RevErr where
  | valueError (msg : String)
  | runtimeError (msg : String)
deriving DecidableEq

/-- One completion-API call, as observed on the wire: the Responses API is
called with the `web_search` tool, the chat-completions fallback is called
with a (system, user) message pair and no tools parameter at all. -/
inductive Event where
  | primaryCall (input : String) (tools : List String)
  | fallbackCall (systemMsg userMsg : String)
deriving DecidableEq

/-- Whether an event is a fallback (chat-completions) call. -/
def Event.isFallback : Event → Bool
  | .fallbackCall _ _ => true
  | _ => false

/-- The system text prepended to the prompt for the primary call. -/
def primarySystemText : String :=
  "You are a precise academic assistant that corrects and completes BibTeX entries. Always return valid BibTeX format.\n\n"

/-- The system message of the fallback chat-completions call. -/
def fallbackSystemMsg : String :=
  "You are a precise academic assistant that corrects and completes BibTeX entries. Always return valid BibTeX format. Use your knowledge to correct and complete the entry as best as you can."

/-- The body of the outer `try` of `revise_bibtex` after the prompt is built:
the Responses-API call followed by the `hasattr` extraction chain and the
truthiness check. An `.error` is any exception the outer `except` catches. -/
def primaryStage (env : Env) (full_prompt : String) : Except String String :=
  match env.primary full_prompt with
  | .error e => .error e
  | .ok resp =>
    match truthyStr (extractRevised resp) with
    | none => .error "Could not extract BibTeX from response"
    | some revised => .ok revised

/-- The fallback `try` of `revise_bibtex`: the chat-completions call and the
`choices[0].message.content` access (an empty `choices` raises an IndexError
inside the same `try`); any exception there becomes the final RuntimeError
carrying both messages. -/
def fallbackStage (env : Env) (prompt : String) (e : String) : Except RevErr String :=
  match env.fallback fallbackSystemMsg prompt with
  | .error e2 =>
    .error (.runtimeError
      ("Failed to call OpenAI API: " ++ e ++ " | Fallback also failed: " ++ e2))
  | .ok resp =>
    match resp.choices with
    | [] =>
      .error (.runtimeError
        ("Failed to call OpenAI API: " ++ e ++
          " | Fallback also failed: list index out of range"))
    | content :: _ => .ok content

/-- The method `BibFixAgent.revise_bibtex` (agent.py lines 66-132), returning the result
together with the trace of completion-API calls made. The whole primary
stage (API call, extraction, truthiness check) sits in one `try`, so an
extraction `ValueError` reaches the fallback exactly as an API exception
does. The nested `try: bibtexparser.loads(revised_bibtex) except: print`
around the returned text only prints a warning — it never changes the result
or the control flow — so it leaves no mark on this function's value. An
empty `choices` list in the fallback raises an IndexError inside the second
`try`, which becomes part of the RuntimeError. -/
def revise_bibtex (env : Env) (bibtex_string : String) (user_preferences : String) :
    Except RevErr String × List Event :=
  match parse_bibtex env bibtex_string with
  | .error msg => (.error (.valueError msg), [])
  | .ok parsed =>
    match primaryStage env
        (primarySystemText ++ create_prompt env bibtex_string parsed user_preferences) with
    | .ok revised =>
      (.ok revised,
       [.primaryCall
          (primarySystemText ++ create_prompt env bibtex_string parsed user_preferences)
          ["web_search"]])
    | .error e =>
      (fallbackStage env (create_prompt env bibtex_string parsed user_preferences) e,
       [.primaryCall
          (primarySystemText ++ create_prompt env bibtex_string parsed user_preferences)
          ["web_search"],
        .fallbackCall fallbackSystemMsg
          (create_prompt env bibtex_string parsed user_preferences)])

/-! ### app.py: the web front end's per-entry loop -/

/-- The loop body of `app.py` (lines 78-96): each entry is dumped on its own
through the writer and revised; an exception from any entry escapes to the
surrounding `try`, aborting the whole run with an error message and no
output document. -/
def appRevisedEntries (env : Env) (preferences : String) :
    List Entry → Except RevErr (List String)
  | [] => .ok []
  | e :: rest =>
    match (revise_bibtex env (env.write e) preferences).1 with
    | .error err => .error err
    | .ok revised_entry_text =>
      match appRevisedEntries env preferences rest with
      | .error err => .error err
      | .ok ts => .ok (revised_entry_text :: ts)

/-- The line `combined = "\n\n".join(revised_entries)` of app.py (line 97). -/
def appCombined (env : Env) (preferences : String) (entries : List Entry) :
    Except RevErr String :=
  match appRevisedEntries env preferences entries with
  | .error err => .error err
  | .ok ts => .ok (String.intercalate "\n\n" ts)

/-! ### cli.py: the command-line front end's per-entry loop -/

/-- One iteration of the CLI loop (cli.py lines 78-99): the entry is dumped
through the writer and revised; on success the stripped revised text is
kept, on any exception the stripped original text is kept instead. -/
def cliRevised (env : Env) (preferences : String) (e : Entry) : String :=
  match (revise_bibtex env (env.write e) preferences).1 with
  | .ok revised_text => pyStrip revised_text
  | .error _ => pyStrip (env.write e)

/-- The list `revised_entries_text` accumulated by the CLI loop. -/
def cliTexts (env : Env) (preferences : String) (entries : List Entry) : List String :=
  entries.map (cliRevised env preferences)

/-- The line `combined = "\n\n".join(revised_entries_text) + "\n"` (cli.py line 101). -/
def cliCombined (env : Env) (preferences : String) (entries : List Entry) : String :=
  String.intercalate "\n\n" (cliTexts env preferences entries) ++ "\n"

/-! ### Spec-side definitions

These are written from the words of the specification and of the claims, to
be compared with the code-side definitions above. -/

/-- Spec-side: the title is the raw field with leading and trailing brace
characters stripped. -/
def specTitle (raw : String) : String := pyStripChars [lbrace, rbrace] raw

/-- Spec-side: the first author is the text before the first " and " if the
field contains " and ", otherwise the text before the first comma if it
contains a comma, otherwise the whole field, whitespace-stripped. -/
def specFirstAuthor (authors : String) : String :=
  if pyIn " and " authors then pyStrip (pySplitHead " and " authors)
  else if pyIn "," authors then pyStrip (pySplitHead "," authors)
  else pyStrip authors

/-- Spec-side: the prompt built with no preferences section at all. -/
def create_prompt_no_prefs (env : Env) (original_bibtex : String)
    (parsed : ParsedBib) : String :=
  (match env.instructions with
   | some instr => promptHeader parsed.title parsed.first_author original_bibtex ++ "\n" ++ instr
   | none => promptHeader parsed.title parsed.first_author original_bibtex) ++ promptTail

/-- The string `a` occurs verbatim as a contiguous substring of `b`. -/
def Substr (a b : String) : Prop := ∃ x y, b = x ++ a ++ y

theorem substr_middle (x a y : String) : Substr a (x ++ a ++ y) := ⟨x, y, rfl⟩

theorem Substr.extendRight {a b : String} (c : String) (h : Substr a b) :
    Substr a (b ++ c) := by
  obtain ⟨x, y, rfl⟩ := h
  exact ⟨x, y ++ c, by simp [String.append_assoc]⟩

theorem Substr.extendLeft {a b : String} (c : String) (h : Substr a b) :
    Substr a (c ++ b) := by
  obtain ⟨x, y, rfl⟩ := h
  exact ⟨c ++ x, y, by simp [String.append_assoc]⟩

/-! ### Concrete test instances -/

/-- A concrete entry with all the fields the agent reads. -/
def entA : Entry :=
  ⟨[("ENTRYTYPE", "article"), ("ID", "smith2020"),
    ("title", "\x7bDeep Learning\x7d"),
    ("author", "Smith, John and Doe, Jane")]⟩

/-- A concrete entry with none of the fields the agent reads. -/
def entBare : Entry := ⟨[("ID", "bare1")]⟩

/-- A concrete environment whose primary call succeeds. -/
def testEnv : Env :=
  { loads := fun s => if s == "SRC" then .ok [entA] else .ok []
    write := fun e => e.get "ID" "?"
    primary := fun _ => .ok (.withOutputText (some "REVISED"))
    fallback := fun _ _ => .ok ⟨["FBTEXT"]⟩
    instructions := some "INSTR" }

/-- A concrete environment where both completion calls raise. -/
def failEnv : Env :=
  { loads := fun _ => .ok [entA]
    write := fun e => e.get "ID" "?"
    primary := fun _ => .error "boom"
    fallback := fun _ _ => .error "boom2"
    instructions := none }

/-- A concrete environment delivering the field-less entry. -/
def envBare : Env :=
  { loads := fun _ => .ok [entBare]
    write := fun e => e.get "ID" "?"
    primary := fun _ => .ok (.withOutputText (some "REVISED"))
    fallback := fun _ _ => .ok ⟨["FBTEXT"]⟩
    instructions := none }

/-- A concrete environment whose primary call answers with text that the
BibTeX parser rejects. -/
def envC2 : Env :=
  { loads := fun s => if s == "SRC" then .ok [entA] else .error "syntax error"
    write := fun e => e.get "ID" "?"
    primary := fun _ => .ok (.withOutputText (some "NOT BIBTEX"))
    fallback := fun _ _ => .error "unused"
    instructions := none }

/-- A concrete parse result for the witness instances. -/
def parsedA : ParsedBib :=
  { original_entry := entA, title := "Deep Learning",
    first_author := "Smith, John", entry_type := "article" }

/-- A concrete environment on which every entry revises successfully. -/
def pipeEnv : Env :=
  { loads := fun _ => .ok [entA]
    write := fun e => e.get "ID" "?"
    primary := fun _ => .ok (.withOutputText (some "REVISED"))
    fallback := fun _ _ => .ok ⟨["FBTEXT"]⟩
    instructions := none }

/-- Whether a `revise_bibtex` outcome is an escaping ValueError. -/
def isValueError : Except RevErr String → Bool
  | .error (.valueError _) => true
  | _ => false

/-! ### The claims -/

/-- A helper: the code-side first-author computation of `parse_bibtex`
agrees with the spec-side formula, including on the empty field. -/
theorem firstAuthor_agrees (authors_str : String) :
    (if authors_str ≠ "" then
       if pyIn " and " authors_str then pyStrip (pySplitHead " and " authors_str)
       else if pyIn "," authors_str then pyStrip (pySplitHead "," authors_str)
       else pyStrip authors_str
     else "") = specFirstAuthor authors_str := by
  by_cases h : authors_str = ""
  · subst h
    decide
  · simp [specFirstAuthor, h]

/-- C3: for every input string that parses to at least one BibTeX entry,
`parse_bibtex` returns the first entry's title with leading/trailing braces
stripped, its ENTRYTYPE (default "article"), and the first author computed
by the spec's " and " / comma / whole-field rule, whitespace-stripped. -/
theorem c3_parse_first_entry (env : Env) (s : String) (e : Entry)
    (rest : List Entry) (h : env.loads s = .ok (e :: rest)) :
    parse_bibtex env s =
      .ok { original_entry := e,
            title := specTitle (e.get "title" ""),
            first_author := specFirstAuthor (e.get "author" ""),
            entry_type := e.get "ENTRYTYPE" "article" } := by
  unfold parse_bibtex
  rw [h]
  simp only [specTitle]
  rw [firstAuthor_agrees]

/-- C3 witness: on a concrete environment and entry, the parse yields
title "Deep Learning" (braces stripped), first author "Smith, John" (before
the first " and "), and entry type "article". -/
theorem c3_witness :
    parse_bibtex testEnv "SRC" =
      .ok { original_entry := entA, title := "Deep Learning",
            first_author := "Smith, John", entry_type := "article" } := by
  have h := c3_parse_first_entry testEnv "SRC" entA [] rfl
  rw [h]
  rfl

/-- Anything inside the prompt f-string body survives into the final prompt,
whatever the instructions, preferences and tail append after it. -/
theorem substr_create_prompt_of_header {a : String} (env : Env)
    (original_bibtex : String) (parsed : ParsedBib) (preferences : String)
    (h : Substr a (promptHeader parsed.title parsed.first_author original_bibtex)) :
    Substr a (create_prompt env original_bibtex parsed preferences) := by
  have h1 : Substr a (withInstr env original_bibtex parsed) := by
    unfold withInstr
    cases env.instructions with
    | none => exact h
    | some instr => exact (h.extendRight "\n").extendRight instr
  unfold create_prompt
  by_cases hp : preferences = ""
  · simp only [hp, ne_eq, not_true_eq_false, if_false]
    exact h1.extendRight promptTail
  · simp only [ne_eq, hp, not_false_eq_true, if_true]
    exact (h1.extendRight (prefsBlock preferences)).extendRight promptTail

/-- The original BibTeX text sits verbatim inside the final prompt. -/
theorem substr_orig_create_prompt (env : Env) (original_bibtex : String)
    (parsed : ParsedBib) (preferences : String) :
    Substr original_bibtex (create_prompt env original_bibtex parsed preferences) :=
  substr_create_prompt_of_header env original_bibtex parsed preferences
    (by unfold promptHeader; exact substr_middle _ _ _)

/-- C4: the prompt submitted to the completion endpoint embeds the original
BibTeX entry text verbatim; when the preferences string is non-empty the
preferences text is embedded verbatim as well, and when it is empty the
prompt coincides with the prompt built with no preferences section at all. -/
theorem c4_prompt_contents (env : Env) (original_bibtex : String)
    (parsed : ParsedBib) (preferences : String) :
    Substr original_bibtex (create_prompt env original_bibtex parsed preferences) ∧
    (preferences ≠ "" →
      Substr preferences (create_prompt env original_bibtex parsed preferences)) ∧
    (preferences = "" →
      create_prompt env original_bibtex parsed preferences =
        create_prompt_no_prefs env original_bibtex parsed) := by
  refine ⟨substr_orig_create_prompt env original_bibtex parsed preferences, ?_, ?_⟩
  · intro hp
    unfold create_prompt
    simp only [ne_eq, hp, not_false_eq_true, if_true]
    have h1 : Substr preferences (prefsBlock preferences) := by
      unfold prefsBlock; exact substr_middle _ _ _
    exact ((h1.extendLeft (withInstr env original_bibtex parsed)).extendRight promptTail)
  · intro hp
    unfold create_prompt create_prompt_no_prefs withInstr
    simp only [hp, ne_eq, not_true_eq_false, if_false]

/-- C4 witness: on a concrete prompt build, the original text and the
non-empty preferences text both occur in the prompt. -/
theorem c4_witness :
    Substr "ORIGINAL-ENTRY" (create_prompt testEnv "ORIGINAL-ENTRY" parsedA "PREFS") ∧
    Substr "PREFS" (create_prompt testEnv "ORIGINAL-ENTRY" parsedA "PREFS") :=
  ⟨(c4_prompt_contents testEnv "ORIGINAL-ENTRY" parsedA "PREFS").1,
   (c4_prompt_contents testEnv "ORIGINAL-ENTRY" parsedA "PREFS").2.1 (by decide)⟩

/-- Whatever the title text, an empty first author makes the prompt header
carry the line `First Author: (unknown)`. -/
theorem substr_unknown_headerPre (t : String) :
    Substr "First Author: (unknown)\n" (headerPre t "") := by
  refine ⟨"Please search the web for the following academic paper and correct/complete its BibTeX entry:\n\nTitle: \"" ++
            t ++ "\"\n",
          "\nOriginal BibTeX entry:\n```bibtex\n", ?_⟩
  unfold headerPre
  simp only [ne_eq, not_true_eq_false, if_false, String.append_assoc]
  congr 1

/-- C9: an otherwise parsable entry never makes `parse_bibtex` fail because
of missing fields, each default applying independently: a missing title
yields `""`, a missing author yields first author `""`, a missing ENTRYTYPE
yields `"article"`; and whenever the first author comes out empty, the
prompt renders it as `(unknown)`. -/
theorem c9_missing_fields (env : Env) (s : String) (e : Entry)
    (rest : List Entry) (h : env.loads s = .ok (e :: rest)) :
    ∃ parsed, parse_bibtex env s = .ok parsed ∧
      (e.fields.lookup "title" = none → parsed.title = "") ∧
      (e.fields.lookup "author" = none → parsed.first_author = "") ∧
      (e.fields.lookup "ENTRYTYPE" = none → parsed.entry_type = "article") ∧
      (parsed.first_author = "" → ∀ preferences,
        Substr "First Author: (unknown)\n"
          (create_prompt env s parsed preferences)) := by
  refine ⟨{ original_entry := e,
            title := pyStripChars [lbrace, rbrace] (e.get "title" ""),
            first_author :=
              if e.get "author" "" ≠ "" then
                if pyIn " and " (e.get "author" "") then
                  pyStrip (pySplitHead " and " (e.get "author" ""))
                else if pyIn "," (e.get "author" "") then
                  pyStrip (pySplitHead "," (e.get "author" ""))
                else pyStrip (e.get "author" "")
              else "",
            entry_type := e.get "ENTRYTYPE" "article" }, ?_, ?_, ?_, ?_, ?_⟩
  · unfold parse_bibtex
    rw [h]
  · intro ht
    have ht' : e.get "title" "" = "" := by unfold Entry.get; rw [ht]
    simp only [ht']
    rfl
  · intro ha
    have ha' : e.get "author" "" = "" := by unfold Entry.get; rw [ha]
    simp only [ha', ne_eq, not_true_eq_false, if_false]
  · intro hk
    unfold Entry.get
    rw [hk]
  · intro hfa preferences
    apply substr_create_prompt_of_header
    unfold promptHeader
    simp only at hfa
    rw [hfa]
    exact ((substr_unknown_headerPre _).extendRight s).extendRight "\n```\n"

/-- C9 witness: the concrete field-less entry parses to all three defaults
at once and its prompt shows the unknown-author marker. -/
theorem c9_witness :
    ∃ parsed, parse_bibtex envBare "X" = .ok parsed ∧
      parsed.title = "" ∧ parsed.first_author = "" ∧
      parsed.entry_type = "article" ∧
      Substr "First Author: (unknown)\n"
        (create_prompt envBare "X" parsed "") := by
  obtain ⟨parsed, hp, h1, h2, h3, h4⟩ := c9_missing_fields envBare "X" entBare [] rfl
  exact ⟨parsed, hp, h1 rfl, h2 rfl, h3 rfl, h4 (h2 rfl) ""⟩

/-- C10: with a multi-entry input, only the first entry determines the parse
result (two environments that agree on the first entry but disagree on the
rest parse identically), the parse succeeds, and the full multi-entry input
text is still embedded verbatim in the prompt. -/
theorem c10_extra_entries_ignored (env env' : Env) (s : String) (e : Entry)
    (rest rest' : List Entry) (preferences : String)
    (h : env.loads s = .ok (e :: rest)) (h' : env'.loads s = .ok (e :: rest')) :
    parse_bibtex env s = parse_bibtex env' s ∧
    ∃ parsed, parse_bibtex env s = .ok parsed ∧ parsed.original_entry = e ∧
      Substr s (create_prompt env s parsed preferences) := by
  constructor
  · unfold parse_bibtex
    rw [h, h']
  · refine ⟨{ original_entry := e,
              title := pyStripChars [lbrace, rbrace] (e.get "title" ""),
              first_author :=
                if e.get "author" "" ≠ "" then
                  if pyIn " and " (e.get "author" "") then
                    pyStrip (pySplitHead " and " (e.get "author" ""))
                  else if pyIn "," (e.get "author" "") then
                    pyStrip (pySplitHead "," (e.get "author" ""))
                  else pyStrip (e.get "author" "")
                else "",
              entry_type := e.get "ENTRYTYPE" "article" }, ?_, rfl,
            substr_orig_create_prompt env s _ preferences⟩
    unfold parse_bibtex
    rw [h]

/-- C10 witness: two concrete environments with the same first entry parse
identically, and the input text occurs in the prompt. -/
theorem c10_witness :
    parse_bibtex testEnv "SRC" = parse_bibtex failEnv "SRC" ∧
    ∃ parsed, parse_bibtex testEnv "SRC" = .ok parsed ∧
      parsed.original_entry = entA ∧
      Substr "SRC" (create_prompt testEnv "SRC" parsed "P") :=
  c10_extra_entries_ignored testEnv failEnv "SRC" entA [] [] "P" rfl rfl

/-- When the input does not parse, `revise_bibtex` raises the ValueError and
makes no completion-API call at all. -/
theorem revise_parse_error (env : Env) (s preferences msg : String)
    (hp : parse_bibtex env s = .error msg) :
    revise_bibtex env s preferences = (.error (.valueError msg), []) := by
  unfold revise_bibtex
  rw [hp]

/-- When parsing and the primary stage both succeed, `revise_bibtex` returns
the extracted text after a single primary call. -/
theorem revise_primary_ok (env : Env) (s preferences : String) (parsed : ParsedBib)
    (revised : String) (hp : parse_bibtex env s = .ok parsed)
    (hs : primaryStage env
        (primarySystemText ++ create_prompt env s parsed preferences) = .ok revised) :
    revise_bibtex env s preferences =
      (.ok revised,
       [.primaryCall (primarySystemText ++ create_prompt env s parsed preferences)
          ["web_search"]]) := by
  unfold revise_bibtex
  rw [hp]
  simp only [hs]

/-- When parsing succeeds but the primary stage raises, `revise_bibtex`
reaches the fallback stage after the primary call and one fallback call. -/
theorem revise_primary_error (env : Env) (s preferences : String) (parsed : ParsedBib)
    (e : String) (hp : parse_bibtex env s = .ok parsed)
    (hs : primaryStage env
        (primarySystemText ++ create_prompt env s parsed preferences) = .error e) :
    revise_bibtex env s preferences =
      (fallbackStage env (create_prompt env s parsed preferences) e,
       [.primaryCall (primarySystemText ++ create_prompt env s parsed preferences)
          ["web_search"],
        .fallbackCall fallbackSystemMsg (create_prompt env s parsed preferences)]) := by
  unfold revise_bibtex
  rw [hp]
  simp only [hs]

/-- The call trace of a revision is empty, a lone primary call, or a primary
call followed by one fallback call. -/
theorem revise_trace_cases (env : Env) (s preferences : String) :
    (revise_bibtex env s preferences).2 = [] ∨
    (∃ fp, (revise_bibtex env s preferences).2 =
      [Event.primaryCall fp ["web_search"]]) ∨
    (∃ fp pr, (revise_bibtex env s preferences).2 =
      [Event.primaryCall fp ["web_search"],
       Event.fallbackCall fallbackSystemMsg pr]) := by
  cases hp : parse_bibtex env s with
  | error msg =>
    rw [revise_parse_error env s preferences msg hp]
    exact Or.inl rfl
  | ok parsed =>
    cases hs : primaryStage env
        (primarySystemText ++ create_prompt env s parsed preferences) with
    | ok revised =>
      rw [revise_primary_ok env s preferences parsed revised hp hs]
      exact Or.inr (Or.inl ⟨_, rfl⟩)
    | error e =>
      rw [revise_primary_error env s preferences parsed e hp hs]
      exact Or.inr (Or.inr ⟨_, _, rfl⟩)

/-- C1: per entry, at most two completion-API calls are ever made, with at
most one fallback call among them; if the primary Responses-API call (made
with the web_search tool) raises, exactly one fallback chat-completions call
(with no tools) follows, and if that call also raises, `revise_bibtex`
raises the combined RuntimeError. -/
theorem c1_fallback_policy (env : Env) (s preferences : String) :
    ((revise_bibtex env s preferences).2.length ≤ 2 ∧
     ((revise_bibtex env s preferences).2.filter Event.isFallback).length ≤ 1) ∧
    (∀ parsed, parse_bibtex env s = .ok parsed →
      ∀ e, env.primary
          (primarySystemText ++ create_prompt env s parsed preferences) = .error e →
        (revise_bibtex env s preferences).2 =
          [Event.primaryCall
             (primarySystemText ++ create_prompt env s parsed preferences)
             ["web_search"],
           Event.fallbackCall fallbackSystemMsg (create_prompt env s parsed preferences)] ∧
        ∀ e2, env.fallback fallbackSystemMsg
            (create_prompt env s parsed preferences) = .error e2 →
          (revise_bibtex env s preferences).1 =
            .error (.runtimeError
              ("Failed to call OpenAI API: " ++ e ++
                " | Fallback also failed: " ++ e2))) := by
  constructor
  · rcases revise_trace_cases env s preferences with h | ⟨fp, h⟩ | ⟨fp, pr, h⟩ <;>
      rw [h] <;> exact ⟨by simp, by simp [Event.isFallback]⟩
  · intro parsed hp e hprim
    have hps : primaryStage env
        (primarySystemText ++ create_prompt env s parsed preferences) = .error e := by
      unfold primaryStage
      rw [hprim]
    have hrev := revise_primary_error env s preferences parsed e hp hps
    refine ⟨by rw [hrev], ?_⟩
    intro e2 hfb
    rw [hrev]
    unfold fallbackStage
    rw [hfb]

/-- C1 witness: on the concrete environment where both endpoints raise, the
trace is exactly one primary call followed by one fallback call and the
result is the combined RuntimeError. -/
theorem c1_witness :
    (revise_bibtex failEnv "SRC" "").2 =
      [Event.primaryCall
         (primarySystemText ++ create_prompt failEnv "SRC" parsedA "")
         ["web_search"],
       Event.fallbackCall fallbackSystemMsg (create_prompt failEnv "SRC" parsedA "")] ∧
    (revise_bibtex failEnv "SRC" "").1 =
      .error (.runtimeError
        "Failed to call OpenAI API: boom | Fallback also failed: boom2") := by
  have h := (c1_fallback_policy failEnv "SRC" "").2 parsedA rfl "boom" rfl
  refine ⟨h.1, ?_⟩
  rw [h.2 "boom2" rfl]
  rfl

/-- A value passing the truthiness check is a non-empty string. -/
theorem truthyStr_ne_empty (o : Option String) (t : String)
    (h : truthyStr o = some t) : t ≠ "" := by
  intro h2
  subst h2
  cases o with
  | none => cases h
  | some s' =>
    by_cases h0 : s' = ""
    · subst h0
      simp [truthyStr] at h
    · simp [truthyStr, h0] at h

/-- C2 counterexample: a run in which the primary call answers with text
that the BibTeX parser rejects outright, yet `revise_bibtex` returns that
text — so the returned text is not validated as parsing to BibTeX. -/
theorem c2_counterexample :
    (revise_bibtex envC2 "SRC" "").1 = .ok "NOT BIBTEX" ∧
    envC2.loads "NOT BIBTEX" = .error "syntax error" :=
  ⟨rfl, rfl⟩

/-- C2 (amended): the text returned on the primary path is whatever the
extraction chain produced, subject only to the non-emptiness (truthiness)
check; a BibTeX parse of it is merely attempted — the statement puts no
condition whatsoever on `env.loads t`, so the text is returned whether or
not it parses, after exactly the one primary call. -/
theorem c2_extraction_no_validation (env : Env) (s preferences : String)
    (parsed : ParsedBib) (resp : PrimaryResponse) (t : String)
    (hp : parse_bibtex env s = .ok parsed)
    (hr : env.primary
        (primarySystemText ++ create_prompt env s parsed preferences) = .ok resp)
    (he : truthyStr (extractRevised resp) = some t) :
    (revise_bibtex env s preferences).1 = .ok t ∧ t ≠ "" ∧
    (revise_bibtex env s preferences).2 =
      [Event.primaryCall
         (primarySystemText ++ create_prompt env s parsed preferences)
         ["web_search"]] := by
  have hps : primaryStage env
      (primarySystemText ++ create_prompt env s parsed preferences) = .ok t := by
    simp only [primaryStage, hr, he]
  have hrev := revise_primary_ok env s preferences parsed t hp hps
  exact ⟨by rw [hrev], truthyStr_ne_empty _ _ he, by rw [hrev]⟩

/-- C2 witness: the amended statement instantiated on the concrete run whose
answer text fails to parse. -/
theorem c2_witness :
    (revise_bibtex envC2 "SRC" "").1 = .ok "NOT BIBTEX" ∧ "NOT BIBTEX" ≠ "" ∧
    (revise_bibtex envC2 "SRC" "").2 =
      [Event.primaryCall
         (primarySystemText ++ create_prompt envC2 "SRC" parsedA "")
         ["web_search"]] :=
  c2_extraction_no_validation envC2 "SRC" "" parsedA
    (.withOutputText (some "NOT BIBTEX")) "NOT BIBTEX" rfl rfl rfl

/-- The fallback stage never produces a ValueError. -/
theorem fallbackStage_no_valueError (env : Env) (prompt e : String) :
    isValueError (fallbackStage env prompt e) = false := by
  unfold fallbackStage
  cases env.fallback fallbackSystemMsg prompt with
  | error e2 => rfl
  | ok resp =>
    obtain ⟨choices⟩ := resp
    cases choices with
    | nil => rfl
    | cons content rest => rfl

/-- C7: `revise_bibtex` raises a ValueError exactly when the input string
does not parse to at least one BibTeX entry (the parser raises, or yields no
entries); any input that parses to at least one entry is accepted — the run
proceeds to the completion calls and can only end in a result or a
RuntimeError. -/
theorem c7_valueerror_iff_unparsable (env : Env) (s preferences : String) :
    isValueError (revise_bibtex env s preferences).1 = true ↔
      (env.loads s = .ok [] ∨ ∃ e, env.loads s = .error e) := by
  cases hl : env.loads s with
  | error e =>
    have hp : parse_bibtex env s = .error ("Failed to parse BibTeX: " ++ e) := by
      unfold parse_bibtex
      rw [hl]
    rw [revise_parse_error env s preferences _ hp]
    simp [isValueError, hl]
  | ok entries =>
    cases entries with
    | nil =>
      have hp : parse_bibtex env s =
          .error "Failed to parse BibTeX: No valid BibTeX entries found" := by
        unfold parse_bibtex
        rw [hl]
      rw [revise_parse_error env s preferences _ hp]
      simp [isValueError]
    | cons e rest =>
      obtain ⟨parsed, hp⟩ : ∃ parsed, parse_bibtex env s = .ok parsed := by
        unfold parse_bibtex
        rw [hl]
        exact ⟨_, rfl⟩
      constructor
      · intro hval
        exfalso
        cases hs : primaryStage env
            (primarySystemText ++ create_prompt env s parsed preferences) with
        | ok revised =>
          rw [revise_primary_ok env s preferences parsed revised hp hs] at hval
          cases hval
        | error er =>
          rw [revise_primary_error env s preferences parsed er hp hs] at hval
          rw [show (fallbackStage env (create_prompt env s parsed preferences) er,
                ([Event.primaryCall
                    (primarySystemText ++ create_prompt env s parsed preferences)
                    ["web_search"],
                  Event.fallbackCall fallbackSystemMsg
                    (create_prompt env s parsed preferences)] : List Event)).1 =
              fallbackStage env (create_prompt env s parsed preferences) er from rfl] at hval
          rw [fallbackStage_no_valueError] at hval
          cases hval
      · intro hcases
        exfalso
        rcases hcases with h0 | ⟨e0, h0⟩
        · simp at h0
        · cases h0

/-- C7 witness: on an input that parses to no entry the result is a
ValueError. -/
theorem c7_witness :
    isValueError (revise_bibtex testEnv "OTHER" "").1 = true :=
  (c7_valueerror_iff_unparsable testEnv "OTHER" "").mpr (Or.inl rfl)

/-- The CLI output list is a position-wise map of the per-entry processing. -/
theorem cliTexts_get (env : Env) (preferences : String) (entries : List Entry)
    (i : Nat) (hi : i < entries.length)
    (hi2 : i < (cliTexts env preferences entries).length) :
    (cliTexts env preferences entries).get ⟨i, hi2⟩ =
      cliRevised env preferences (entries.get ⟨i, hi⟩) := by
  simp only [cliTexts, List.get_eq_getElem, List.getElem_map]

/-- An accepted app run yields one revised text per entry, in order: the
text at position `i` is the successful revision of the entry at position
`i`. -/
theorem appRevisedEntries_ok_get (env : Env) (preferences : String)
    (entries : List Entry) :
    ∀ ts, appRevisedEntries env preferences entries = .ok ts →
      ts.length = entries.length ∧
      ∀ i (hi : i < entries.length) (hi2 : i < ts.length),
        (revise_bibtex env (env.write (entries.get ⟨i, hi⟩)) preferences).1 =
          .ok (ts.get ⟨i, hi2⟩) := by
  induction entries with
  | nil =>
    intro ts h
    simp only [appRevisedEntries] at h
    injection h with h1
    subst h1
    exact ⟨rfl, fun i hi _ => absurd hi (Nat.not_lt_zero i)⟩
  | cons e rest ih =>
    intro ts h
    simp only [appRevisedEntries] at h
    cases hr : (revise_bibtex env (env.write e) preferences).1 with
    | error err =>
      rw [hr] at h
      cases h
    | ok t =>
      rw [hr] at h
      cases hrest : appRevisedEntries env preferences rest with
      | error err =>
        rw [hrest] at h
        cases h
      | ok ts2 =>
        rw [hrest] at h
        injection h with h1
        subst h1
        obtain ⟨hlen, hget⟩ := ih ts2 hrest
        refine ⟨by simp [hlen], ?_⟩
        intro i hi hi2
        cases i with
        | zero => simpa using hr
        | succ n =>
          have hn : n < rest.length := Nat.lt_of_succ_lt_succ hi
          have hn2 : n < ts2.length := Nat.lt_of_succ_lt_succ hi2
          simpa using hget n hn hn2

/-- C5: on a non-empty input, the app's output document is the per-entry
revised texts joined by a blank-line separator in input order, one text per
entry; the CLI's output is the per-entry texts joined the same way with one
trailing newline, also one per entry. -/
theorem c5_joined_output (env : Env) (preferences : String)
    (entries : List Entry) (hne : entries ≠ []) (ts : List String)
    (happ : appRevisedEntries env preferences entries = .ok ts) :
    (appCombined env preferences entries = .ok (String.intercalate "\n\n" ts) ∧
     ts.length = entries.length ∧
     ∀ i (hi : i < entries.length) (hi2 : i < ts.length),
       (revise_bibtex env (env.write (entries.get ⟨i, hi⟩)) preferences).1 =
         .ok (ts.get ⟨i, hi2⟩)) ∧
    (cliCombined env preferences entries =
       String.intercalate "\n\n" (entries.map (cliRevised env preferences)) ++ "\n" ∧
     (cliTexts env preferences entries).length = entries.length) := by
  obtain ⟨hlen, hget⟩ := appRevisedEntries_ok_get env preferences entries ts happ
  refine ⟨⟨?_, hlen, hget⟩, rfl, by simp [cliTexts]⟩
  unfold appCombined
  rw [happ]

/-- C5 witness: a one-entry run of both pipelines on a concrete
environment. -/
theorem c5_witness :
    (appCombined pipeEnv "" [entA] = .ok (String.intercalate "\n\n" ["REVISED"]) ∧
     ([("REVISED" : String)]).length = ([entA]).length ∧
     ∀ i (hi : i < ([entA]).length) (hi2 : i < ([("REVISED" : String)]).length),
       (revise_bibtex pipeEnv (pipeEnv.write (([entA]).get ⟨i, hi⟩)) "").1 =
         .ok (([("REVISED" : String)]).get ⟨i, hi2⟩)) ∧
    (cliCombined pipeEnv "" [entA] =
       String.intercalate "\n\n" (([entA]).map (cliRevised pipeEnv "")) ++ "\n" ∧
     (cliTexts pipeEnv "" [entA]).length = ([entA]).length) :=
  c5_joined_output pipeEnv "" [entA] (by simp) ["REVISED"] rfl

/-- C6: entries are processed sequentially and independently — the output
text at a position depends only on the entry at that position and the fixed
preferences, so two runs whose inputs share an entry produce the same text
for it, in the CLI and in the app. -/
theorem c6_entry_independence (env : Env) (preferences : String)
    (xs ys : List Entry) (i j : Nat) (hi : i < xs.length) (hj : j < ys.length)
    (hi2 : i < (cliTexts env preferences xs).length)
    (hj2 : j < (cliTexts env preferences ys).length)
    (hsame : xs.get ⟨i, hi⟩ = ys.get ⟨j, hj⟩) :
    (cliTexts env preferences xs).get ⟨i, hi2⟩ =
      (cliTexts env preferences ys).get ⟨j, hj2⟩ ∧
    ∀ ts us, appRevisedEntries env preferences xs = .ok ts →
      appRevisedEntries env preferences ys = .ok us →
      ∀ (hi3 : i < ts.length) (hj3 : j < us.length),
        ts.get ⟨i, hi3⟩ = us.get ⟨j, hj3⟩ := by
  constructor
  · rw [cliTexts_get env preferences xs i hi hi2,
        cliTexts_get env preferences ys j hj hj2, hsame]
  · intro ts us hts hus hi3 hj3
    have h1 := (appRevisedEntries_ok_get env preferences xs ts hts).2 i hi hi3
    have h2 := (appRevisedEntries_ok_get env preferences ys us hus).2 j hj hj3
    rw [hsame] at h1
    have h3 := h1.symm.trans h2
    injection h3

/-- C6 witness: two concrete inputs sharing an entry at different positions
get the same text for it in both pipelines. -/
theorem c6_witness :
    (cliTexts pipeEnv "" [entBare, entA]).get ⟨1, by simp [cliTexts]⟩ =
      (cliTexts pipeEnv "" [entA]).get ⟨0, by simp [cliTexts]⟩ ∧
    ∀ ts us, appRevisedEntries pipeEnv "" [entBare, entA] = .ok ts →
      appRevisedEntries pipeEnv "" [entA] = .ok us →
      ∀ (hi3 : 1 < ts.length) (hj3 : 0 < us.length),
        ts.get ⟨1, hi3⟩ = us.get ⟨0, hj3⟩ :=
  c6_entry_independence pipeEnv "" [entBare, entA] [entA] 1 0 (by simp) (by simp)
    (by simp [cliTexts]) (by simp [cliTexts]) rfl

/-- C8: in the CLI, an entry whose revision raises keeps its stripped
original dumped text at its own position, and the output list still holds
exactly one text per input entry. -/
theorem c8_cli_keeps_original (env : Env) (preferences : String)
    (entries : List Entry) (i : Nat) (hi : i < entries.length)
    (hi2 : i < (cliTexts env preferences entries).length) (err : RevErr)
    (hfail : (revise_bibtex env (env.write (entries.get ⟨i, hi⟩)) preferences).1 =
      .error err) :
    (cliTexts env preferences entries).length = entries.length ∧
    (cliTexts env preferences entries).get ⟨i, hi2⟩ =
      pyStrip (env.write (entries.get ⟨i, hi⟩)) := by
  refine ⟨by simp [cliTexts], ?_⟩
  rw [cliTexts_get env preferences entries i hi hi2]
  unfold cliRevised
  rw [hfail]

/-- C8 witness: on the concrete environment whose completion calls raise,
the single entry's stripped original text survives into the output list. -/
theorem c8_witness :
    (cliTexts failEnv "" [entA]).length = ([entA]).length ∧
    (cliTexts failEnv "" [entA]).get ⟨0, by simp [cliTexts]⟩ =
      pyStrip (failEnv.write (([entA]).get ⟨0, by simp⟩)) :=
  c8_cli_keeps_original failEnv "" [entA] 0 (by simp) (by simp [cliTexts])
    (.runtimeError "Failed to call OpenAI API: boom | Fallback also failed: boom2")
    rfl

end BibFixer
